import Mathlib

/-!
Shallow embedding of `src/studiolibrarymaya/basecreatewidget.py`
(class `BaseCreateWidget`) from the studiolibrary repository.

The widget is a UI controller.  We model its mutable state (the stored
icon path, the script-job handle, the text of the name / comment /
folder-edit fields, the thumbnail geometry and the Qt closed flag) as a
structure, and the host environment (the current Maya selection, the
filesystem `os.path.exists` predicate, the button the user picks in the
thumbnail question dialog, the path delivered by a thumbnail capture,
and whether the external `item.save` collaborator raises) as a second
structure.  Each Python method becomes a Lean function on these
structures; methods with observable effects additionally return an
effect record (which dialogs were shown, the arguments `item.save` was
called with, how many times the script job's `kill()` and the
`mutils.ScriptJob` constructor ran, and the message of an exception
escaping the method).
-/

namespace StudioLibrary

/-- Python `str.strip` whitespace set: space, tab, newline, carriage
return, vertical tab, form feed. -/
def isPySpace (c : Char) : Bool :=
  c = ' ' || c = '\t' || c = '\n' || c = '\r' || c = '\x0b' || c = '\x0c'

/-- Python `str.strip()`: drop leading and trailing whitespace. -/
def pyStrip (s : String) : String :=
  String.mk (((s.toList.dropWhile isPySpace).reverse.dropWhile isPySpace).reverse)

/-- The three buttons offered by `showThumbnailCaptureDialog`
(`QMessageBox.Yes | QMessageBox.Ignore | QMessageBox.Cancel`). -/
inductive MsgButton where
  | yes
  | ignore
  | cancel
deriving DecidableEq, Repr

/-- The widget state: the private attributes set in `__init__` together
with the text of the ui fields the methods read, and the thumbnail
geometry written by `setIcon` / `updateThumbnailSize`.  The script job
handle is `Option Nat`: `none` is Python `None`, `some j` a live
`mutils.ScriptJob` identified by `j`; `nextJobId` supplies fresh
identities for newly constructed jobs. -/
structure WidgetState where
  iconPath : String
  scriptJob : Option Nat
  nextJobId : Nat
  nameText : String
  commentText : String
  folderText : String
  widgetWidth : Int
  thumbIconSize : Int × Int
  thumbMaxSize : Int × Int
  frameMaxSize : Int × Int
  qtClosed : Bool
deriving DecidableEq, Repr

/-- The host environment an `accept()` call runs against:
`selection` is `maya.cmds.ls(selection=True) or []`, `fileExists` is
`os.path.exists`, `dialogButton` the user's answer to the thumbnail
question, `capturedPath` the path the capture utility delivers to the
`captured` callback when a capture is launched (`none` if the callback
does not fire during the call), and `itemSaveRaises` the message of the
exception `item.save` raises (`none` when it returns normally). -/
structure Env where
  selection : List String
  fileExists : String → Bool
  dialogButton : MsgButton
  capturedPath : Option String
  itemSaveRaises : Option String

/-- Effects of the script-job machinery: how many times `kill()` was
called on a subscription and how many `mutils.ScriptJob(...)`
constructions ran. -/
structure SJEffect where
  kills : Nat
  creates : Nat
deriving DecidableEq, Repr

/-- `BaseCreateWidget.name`: `self.ui.name.text().strip()`. -/
def wname (s : WidgetState) : String :=
  pyStrip s.nameText

/-- `BaseCreateWidget.description`: `self.ui.comment.toPlainText().strip()`. -/
def description (s : WidgetState) : String :=
  pyStrip s.commentText

/-- `BaseCreateWidget.folderPath`: `self.ui.folderEdit.text()` (no strip). -/
def folderPath (s : WidgetState) : String :=
  s.folderText

/-- `BaseCreateWidget.setFolderPath`: `self.ui.folderEdit.setText(path)`. -/
def setFolderPath (path : String) (s : WidgetState) : WidgetState :=
  { s with folderText := path }

/-- `BaseCreateWidget.iconPath`: returns `self._iconPath`. -/
def iconPath (s : WidgetState) : String :=
  s.iconPath

/-- `BaseCreateWidget.updateThumbnailSize`: `width = self.width() - 10`;
clamp to 250; assign the square size to the thumbnail button's icon
size, its maximum size and the thumbnail frame's maximum size.  (The
`hasattr(self.ui, "thumbnailButton")` guard holds for the widget's ui
file, which declares the button used throughout `__init__`.) -/
def updateThumbnailSize (s : WidgetState) : WidgetState :=
  let width := s.widgetWidth - 10
  let width := if width > 250 then 250 else width
  { s with
    thumbIconSize := (width, width)
    thumbMaxSize := (width, width)
    frameMaxSize := (width, width) }

/-- `BaseCreateWidget.setIcon`: set the icon, an icon size of 200×200
and clear the button text (the icon itself and the text are not part of
the modelled state). -/
def setIcon (s : WidgetState) : WidgetState :=
  { s with thumbIconSize := (200, 200) }

/-- `BaseCreateWidget.setIconPath`: store the path, build an icon from
it via `setIcon`, then `updateThumbnailSize`. -/
def setIconPath (path : String) (s : WidgetState) : WidgetState :=
  updateThumbnailSize (setIcon { s with iconPath := path })

/-- `BaseCreateWidget._thumbnailCaptured`: forwards the captured path
to `setIconPath`. -/
def thumbnailCaptured (path : String) (s : WidgetState) : WidgetState :=
  setIconPath path s

/-- `BaseCreateWidget.setScriptJobEnabled`.  With `enable=True` a new
`mutils.ScriptJob` is constructed only when `self._scriptJob` is falsy;
with `enable=False` an existing job is killed and the handle reset to
`None`. -/
def setScriptJobEnabled (enable : Bool) (s : WidgetState) :
    WidgetState × SJEffect :=
  if enable then
    if s.scriptJob = none then
      ({ s with scriptJob := some s.nextJobId, nextJobId := s.nextJobId + 1 },
       ⟨0, 1⟩)
    else (s, ⟨0, 0⟩)
  else
    if s.scriptJob = none then ({ s with scriptJob := none }, ⟨0, 0⟩)
    else ({ s with scriptJob := none }, ⟨1, 0⟩)

/-- `BaseCreateWidget.close`: `self.setScriptJobEnabled(False)` followed
by `QtWidgets.QWidget.close(self)`. -/
def close (s : WidgetState) : WidgetState × SJEffect :=
  ({ (setScriptJobEnabled false s).1 with qtClosed := true },
   (setScriptJobEnabled false s).2)

/-- The argument bundle `item.save` is called with:
`item.save(objects, path=path, iconPath=iconPath, metadata=metadata)`.
The metadata dict `{"description": ...}` is an association list with
the single key `"description"`. -/
structure SaveArgs where
  objects : List String
  path : String
  iconP : String
  metadata : List (String × String)
deriving DecidableEq, Repr

/-- Observable outcome of a call to `save` or `accept`. -/
structure CallResult where
  state : WidgetState
  saveCall : Option SaveArgs
  sj : SJEffect
  questionShown : Bool
  criticalShown : Option String
  raised : Option String
deriving Repr

/-- `BaseCreateWidget.save(objects, path, iconPath, metadata)`: call
`item.save` with exactly those arguments; if it returns normally call
`self.close()`; if it raises, the exception propagates and `close` is
never reached. -/
def save (env : Env) (args : SaveArgs) (s : WidgetState) : CallResult :=
  match env.itemSaveRaises with
  | some msg =>
      { state := s, saveCall := some args, sj := ⟨0, 0⟩,
        questionShown := false, criticalShown := none, raised := some msg }
  | none =>
      { state := (close s).1, saveCall := some args, sj := (close s).2,
        questionShown := false, criticalShown := none, raised := none }

/-- Message of the folder validation failure in `accept`. -/
def msgNoFolder : String :=
  "No folder selected. Please select a destination folder."

/-- Message of the name validation failure in `accept`. -/
def msgNoName : String :=
  "No name specified. Please set a name before saving."

/-- Message of the selection validation failure in `accept`. -/
def msgNoObjects : String :=
  "No objects selected. Please select at least one object."

/-- `BaseCreateWidget.showThumbnailCaptureDialog`: show the question
dialog; on `Yes`, launch `thumbnailCapture` (whose `captured` callback,
when it fires, is `_thumbnailCaptured`); return the chosen button. -/
def showThumbnailCaptureDialog (env : Env) (s : WidgetState) :
    WidgetState × MsgButton :=
  let button := env.dialogButton
  let s1 :=
    if button = MsgButton.yes then
      match env.capturedPath with
      | some p => thumbnailCaptured p s
      | none => s
    else s
  (s1, button)

/-- Body of the `try` block of `BaseCreateWidget.accept`, before the
exception handler is applied. -/
def acceptTry (env : Env) (s : WidgetState) : CallResult :=
  let nm := wname s
  let path := folderPath s
  let objects := env.selection
  if path = "" then
    { state := s, saveCall := none, sj := ⟨0, 0⟩,
      questionShown := false, criticalShown := none,
      raised := some msgNoFolder }
  else if nm = "" then
    { state := s, saveCall := none, sj := ⟨0, 0⟩,
      questionShown := false, criticalShown := none,
      raised := some msgNoName }
  else if objects = [] then
    { state := s, saveCall := none, sj := ⟨0, 0⟩,
      questionShown := false, criticalShown := none,
      raised := some msgNoObjects }
  else
    let needDialog := !(env.fileExists (iconPath s))
    if needDialog then
      let (s1, button) := showThumbnailCaptureDialog env s
      if button = MsgButton.cancel then
        { state := s1, saveCall := none, sj := ⟨0, 0⟩,
          questionShown := true, criticalShown := none, raised := none }
      else
        let fullPath := path ++ "/" ++ nm
        let args : SaveArgs :=
          { objects := objects, path := fullPath, iconP := iconPath s1,
            metadata := [("description", description s1)] }
        let r := save env args s1
        { r with questionShown := true }
    else
      let fullPath := path ++ "/" ++ nm
      let args : SaveArgs :=
        { objects := objects, path := fullPath, iconP := iconPath s,
          metadata := [("description", description s)] }
      save env args s

/-- `BaseCreateWidget.accept`: run the try block; any exception is
caught, shown in a modal critical dialog with the exception's message as
text, and re-raised unchanged. -/
def accept (env : Env) (s : WidgetState) : CallResult :=
  let r := acceptTry env s
  match r.raised with
  | some msg => { r with criticalShown := some msg }
  | none => r

/-- The widget state right after `__init__` (with the given injected ui
field texts and widget width): `_iconPath = ""`, `_scriptJob = None`
until `setScriptJobEnabled(True)` runs, then `updateThumbnailSize`.
In Maya (no `NameError`), the constructor ends with a live script job. -/
def initState (nameText commentText folderText : String) (w : Int) :
    WidgetState :=
  let s0 : WidgetState :=
    { iconPath := ""
      scriptJob := none
      nextJobId := 0
      nameText := nameText
      commentText := commentText
      folderText := folderText
      widgetWidth := w
      thumbIconSize := (0, 0)
      thumbMaxSize := (0, 0)
      frameMaxSize := (0, 0)
      qtClosed := false }
  updateThumbnailSize (setScriptJobEnabled true s0).1

/-! ### Helper lemmas characterizing the branches of `accept` -/

lemma acceptTry_noFolder (env : Env) (s : WidgetState)
    (h : folderPath s = "") :
    acceptTry env s =
      { state := s, saveCall := none, sj := ⟨0, 0⟩,
        questionShown := false, criticalShown := none,
        raised := some msgNoFolder } := by
  simp [acceptTry, h]

lemma acceptTry_noName (env : Env) (s : WidgetState)
    (h1 : folderPath s ≠ "") (h2 : wname s = "") :
    acceptTry env s =
      { state := s, saveCall := none, sj := ⟨0, 0⟩,
        questionShown := false, criticalShown := none,
        raised := some msgNoName } := by
  simp [acceptTry, h1, h2]

lemma acceptTry_noObjects (env : Env) (s : WidgetState)
    (h1 : folderPath s ≠ "") (h2 : wname s ≠ "") (h3 : env.selection = []) :
    acceptTry env s =
      { state := s, saveCall := none, sj := ⟨0, 0⟩,
        questionShown := false, criticalShown := none,
        raised := some msgNoObjects } := by
  simp [acceptTry, h1, h2, h3]

lemma acceptTry_iconExists (env : Env) (s : WidgetState)
    (h1 : folderPath s ≠ "") (h2 : wname s ≠ "") (h3 : env.selection ≠ [])
    (h4 : env.fileExists (iconPath s) = true) :
    acceptTry env s =
      save env
        { objects := env.selection
          path := folderPath s ++ "/" ++ wname s
          iconP := iconPath s
          metadata := [("description", description s)] } s := by
  simp [acceptTry, h1, h2, h3, h4]

/-- `showThumbnailCaptureDialog` returns the button the user chose. -/
lemma showThumbnailCaptureDialog_snd (env : Env) (s : WidgetState) :
    (showThumbnailCaptureDialog env s).2 = env.dialogButton := rfl

lemma acceptTry_cancel (env : Env) (s : WidgetState)
    (h1 : folderPath s ≠ "") (h2 : wname s ≠ "") (h3 : env.selection ≠ [])
    (h4 : env.fileExists (iconPath s) = false)
    (h5 : env.dialogButton = MsgButton.cancel) :
    acceptTry env s =
      { state := s, saveCall := none, sj := ⟨0, 0⟩,
        questionShown := true, criticalShown := none, raised := none } := by
  simp [acceptTry, h1, h2, h3, h4, showThumbnailCaptureDialog, h5]

lemma acceptTry_dialog_save (env : Env) (s : WidgetState)
    (h1 : folderPath s ≠ "") (h2 : wname s ≠ "") (h3 : env.selection ≠ [])
    (h4 : env.fileExists (iconPath s) = false)
    (h5 : env.dialogButton ≠ MsgButton.cancel) :
    acceptTry env s =
      { save env
          { objects := env.selection
            path := folderPath s ++ "/" ++ wname s
            iconP := iconPath (showThumbnailCaptureDialog env s).1
            metadata :=
              [("description", description (showThumbnailCaptureDialog env s).1)] }
          (showThumbnailCaptureDialog env s).1
        with questionShown := true } := by
  simp [acceptTry, h1, h2, h3, h4, h5, showThumbnailCaptureDialog_snd]

/-- The thumbnail question dialog (and the capture it may launch)
touches only the icon path and the thumbnail geometry. -/
lemma showThumbnailCaptureDialog_preserves (env : Env) (s : WidgetState) :
    (showThumbnailCaptureDialog env s).1.nameText = s.nameText ∧
    (showThumbnailCaptureDialog env s).1.commentText = s.commentText ∧
    (showThumbnailCaptureDialog env s).1.folderText = s.folderText ∧
    (showThumbnailCaptureDialog env s).1.scriptJob = s.scriptJob ∧
    (showThumbnailCaptureDialog env s).1.qtClosed = s.qtClosed := by
  unfold showThumbnailCaptureDialog
  rcases h : env.capturedPath with _ | p <;>
    by_cases hb : env.dialogButton = MsgButton.yes <;>
      simp [hb, h, thumbnailCaptured, setIconPath, updateThumbnailSize, setIcon]

lemma save_criticalShown (env : Env) (args : SaveArgs) (s : WidgetState) :
    (save env args s).criticalShown = none := by
  rcases h : env.itemSaveRaises with _ | m <;> simp [save, h]

lemma acceptTry_criticalShown (env : Env) (s : WidgetState) :
    (acceptTry env s).criticalShown = none := by
  by_cases h1 : folderPath s = ""
  · simp [acceptTry_noFolder env s h1]
  by_cases h2 : wname s = ""
  · simp [acceptTry_noName env s h1 h2]
  by_cases h3 : env.selection = []
  · simp [acceptTry_noObjects env s h1 h2 h3]
  by_cases h4 : env.fileExists (iconPath s) = true
  · rw [acceptTry_iconExists env s h1 h2 h3 h4]
    exact save_criticalShown env _ s
  · have h4f : env.fileExists (iconPath s) = false := by
      simpa using h4
    by_cases h5 : env.dialogButton = MsgButton.cancel
    · simp [acceptTry_cancel env s h1 h2 h3 h4f h5]
    · rw [acceptTry_dialog_save env s h1 h2 h3 h4f h5]
      simpa using save_criticalShown env _ (showThumbnailCaptureDialog env s).1

lemma save_saveCall (env : Env) (args : SaveArgs) (s : WidgetState) :
    (save env args s).saveCall = some args := by
  rcases h : env.itemSaveRaises with _ | m <;> simp [save, h]

lemma save_questionShown (env : Env) (args : SaveArgs) (s : WidgetState) :
    (save env args s).questionShown = false := by
  rcases h : env.itemSaveRaises with _ | m <;> simp [save, h]

lemma save_raised (env : Env) (args : SaveArgs) (s : WidgetState) :
    (save env args s).raised = env.itemSaveRaises := by
  rcases h : env.itemSaveRaises with _ | m <;> simp [save, h]

lemma save_state_of_raise (env : Env) (args : SaveArgs) (s : WidgetState)
    (h : env.itemSaveRaises ≠ none) :
    (save env args s).state = s ∧ (save env args s).sj = ⟨0, 0⟩ := by
  rcases hr : env.itemSaveRaises with _ | m
  · exact absurd hr h
  · simp [save, hr]

lemma save_state_of_ok (env : Env) (args : SaveArgs) (s : WidgetState)
    (h : env.itemSaveRaises = none) :
    (save env args s).state = (close s).1 ∧
    (save env args s).sj = (close s).2 := by
  simp [save, h]

lemma close_qtClosed (s : WidgetState) : (close s).1.qtClosed = true := by
  by_cases h : s.scriptJob = none <;> simp [close, setScriptJobEnabled, h]

lemma close_scriptJob (s : WidgetState) : (close s).1.scriptJob = none := by
  by_cases h : s.scriptJob = none <;> simp [close, setScriptJobEnabled, h]

lemma close_kills (s : WidgetState) :
    (close s).2.kills = if s.scriptJob = none then 0 else 1 := by
  by_cases h : s.scriptJob = none <;> simp [close, setScriptJobEnabled, h]

lemma close_preserves (s : WidgetState) :
    (close s).1.iconPath = s.iconPath ∧
    (close s).1.nameText = s.nameText ∧
    (close s).1.commentText = s.commentText ∧
    (close s).1.folderText = s.folderText := by
  by_cases h : s.scriptJob = none <;> simp [close, setScriptJobEnabled, h]

lemma save_state_iconPath (env : Env) (args : SaveArgs) (s : WidgetState) :
    iconPath (save env args s).state = iconPath s := by
  rcases hr : env.itemSaveRaises with _ | m
  · rw [(save_state_of_ok env args s hr).1]
    exact (close_preserves s).1
  · rw [(save_state_of_raise env args s (by simp [hr])).1]

lemma accept_raised_eq (env : Env) (s : WidgetState) :
    (accept env s).raised = (acceptTry env s).raised := by
  rcases h : (acceptTry env s).raised with _ | m <;> simp [accept, h]

lemma accept_saveCall_eq (env : Env) (s : WidgetState) :
    (accept env s).saveCall = (acceptTry env s).saveCall := by
  rcases h : (acceptTry env s).raised with _ | m <;> simp [accept, h]

lemma accept_state_eq (env : Env) (s : WidgetState) :
    (accept env s).state = (acceptTry env s).state := by
  rcases h : (acceptTry env s).raised with _ | m <;> simp [accept, h]

lemma accept_questionShown_eq (env : Env) (s : WidgetState) :
    (accept env s).questionShown = (acceptTry env s).questionShown := by
  rcases h : (acceptTry env s).raised with _ | m <;> simp [accept, h]

lemma accept_sj_eq (env : Env) (s : WidgetState) :
    (accept env s).sj = (acceptTry env s).sj := by
  rcases h : (acceptTry env s).raised with _ | m <;> simp [accept, h]

/-- The thumbnail question dialog either leaves the stored icon path
alone or replaces it with the path delivered by the capture. -/
lemma showThumbnailCaptureDialog_iconPath (env : Env) (s : WidgetState) :
    iconPath (showThumbnailCaptureDialog env s).1 = iconPath s ∨
    env.capturedPath = some (iconPath (showThumbnailCaptureDialog env s).1) := by
  unfold showThumbnailCaptureDialog
  rcases h : env.capturedPath with _ | p <;>
    by_cases hb : env.dialogButton = MsgButton.yes <;>
      simp [hb, h, thumbnailCaptured, setIconPath, setIcon,
        updateThumbnailSize, iconPath]

/-- Across a whole `accept` run the stored icon path is either
untouched or set by the capture callback to the captured path. -/
lemma accept_state_iconPath (env : Env) (s : WidgetState) :
    iconPath (accept env s).state = iconPath s ∨
    env.capturedPath = some (iconPath (accept env s).state) := by
  rw [accept_state_eq]
  by_cases h1 : folderPath s = ""
  · rw [acceptTry_noFolder env s h1]; left; rfl
  by_cases h2 : wname s = ""
  · rw [acceptTry_noName env s h1 h2]; left; rfl
  by_cases h3 : env.selection = []
  · rw [acceptTry_noObjects env s h1 h2 h3]; left; rfl
  by_cases h4 : env.fileExists (iconPath s) = true
  · rw [acceptTry_iconExists env s h1 h2 h3 h4, save_state_iconPath]
    left; rfl
  · have h4f : env.fileExists (iconPath s) = false := by simpa using h4
    by_cases h5 : env.dialogButton = MsgButton.cancel
    · rw [acceptTry_cancel env s h1 h2 h3 h4f h5]; left; rfl
    · rw [acceptTry_dialog_save env s h1 h2 h3 h4f h5]
      have hd := showThumbnailCaptureDialog_iconPath env s
      simpa [save_state_iconPath] using hd

/-- Python `str.strip` of an all-whitespace string is empty. -/
lemma pyStrip_all_space (t : String) (h : ∀ c ∈ t.toList, isPySpace c) :
    pyStrip t = "" := by
  unfold pyStrip
  have h1 : t.toList.dropWhile isPySpace = [] :=
    List.dropWhile_eq_nil_iff.mpr h
  rw [h1]
  rfl

end StudioLibrary

namespace StudioLibrary

/-! ### Claim theorems -/

/-- C1: if the folder path is empty, or the stripped name is empty, or
the Maya selection is empty, `accept` refuses the save: `item.save` is
not called and an exception carrying a distinct message per case is
raised, with the folder check first, then the name check, then the
selection check. -/
theorem accept_validates_inputs (env : Env) (s : WidgetState) :
    (folderPath s = "" →
      (accept env s).saveCall = none ∧
      (accept env s).raised = some msgNoFolder) ∧
    (folderPath s ≠ "" → wname s = "" →
      (accept env s).saveCall = none ∧
      (accept env s).raised = some msgNoName) ∧
    (folderPath s ≠ "" → wname s ≠ "" → env.selection = [] →
      (accept env s).saveCall = none ∧
      (accept env s).raised = some msgNoObjects) ∧
    (msgNoFolder ≠ msgNoName ∧ msgNoFolder ≠ msgNoObjects ∧
      msgNoName ≠ msgNoObjects) := by
  refine ⟨fun h => ?_, fun h1 h2 => ?_, fun h1 h2 h3 => ?_, by decide⟩
  · simp [accept, acceptTry_noFolder env s h]
  · simp [accept, acceptTry_noName env s h1 h2]
  · simp [accept, acceptTry_noObjects env s h1 h2 h3]

/-- Witness for C1 at concrete inputs: an empty folder is refused with
the folder message, and with a folder set but a blank name the name
message is raised. -/
theorem accept_validates_inputs_witness :
    ((accept ⟨["pSphere1"], fun _ => false, MsgButton.cancel, none, none⟩
        ⟨"", none, 0, "item1", "", "", 300, (0, 0), (0, 0), (0, 0), false⟩).raised
      = some msgNoFolder) ∧
    ((accept ⟨["pSphere1"], fun _ => false, MsgButton.cancel, none, none⟩
        ⟨"", none, 0, "", "", "/tmp/lib", 300, (0, 0), (0, 0), (0, 0), false⟩).raised
      = some msgNoName) :=
  ⟨((accept_validates_inputs
      ⟨["pSphere1"], fun _ => false, MsgButton.cancel, none, none⟩
      ⟨"", none, 0, "item1", "", "", 300, (0, 0), (0, 0), (0, 0), false⟩).1
        rfl).2,
   ((accept_validates_inputs
      ⟨["pSphere1"], fun _ => false, MsgButton.cancel, none, none⟩
      ⟨"", none, 0, "", "", "/tmp/lib", 300, (0, 0), (0, 0), (0, 0), false⟩).2.1
        (by decide) rfl).2⟩

/-- C4: every exception raised inside `accept`'s try block is surfaced
in the modal critical dialog with the exception's message as text and
then re-raised unchanged; no exception escapes without the dialog, and
the dialog shows nothing when no exception is raised. -/
theorem accept_error_dialog (env : Env) (s : WidgetState) :
    (accept env s).criticalShown = (accept env s).raised := by
  have h := acceptTry_criticalShown env s
  rcases hr : (acceptTry env s).raised with _ | m <;>
    simp [accept, hr, h]

/-- C10: `updateThumbnailSize` sets the thumbnail button's icon size,
its maximum size and the thumbnail frame's maximum size to the square
of side `min (width - 10) 250`, which never exceeds 250. -/
theorem updateThumbnailSize_square (s : WidgetState) :
    (updateThumbnailSize s).thumbIconSize =
      (min (s.widgetWidth - 10) 250, min (s.widgetWidth - 10) 250) ∧
    (updateThumbnailSize s).thumbMaxSize =
      (min (s.widgetWidth - 10) 250, min (s.widgetWidth - 10) 250) ∧
    (updateThumbnailSize s).frameMaxSize =
      (min (s.widgetWidth - 10) 250, min (s.widgetWidth - 10) 250) ∧
    (updateThumbnailSize s).thumbIconSize.1 ≤ 250 := by
  by_cases h : s.widgetWidth - 10 > 250
  · have hm : min (s.widgetWidth - 10) 250 = 250 := min_eq_right h.le
    simp [updateThumbnailSize, h, hm]
  · have h' : s.widgetWidth - 10 ≤ 250 := not_lt.mp h
    have hm : min (s.widgetWidth - 10) 250 = s.widgetWidth - 10 :=
      min_eq_left h'
    simp [updateThumbnailSize, h, hm, h']

/-- C2: once the three validations pass, the thumbnail-capture question
dialog is shown exactly when no file exists at the icon path; choosing
Cancel makes `accept` return without calling `item.save`, without
raising and without closing the widget; when the icon file exists the
dialog is not shown at all. -/
theorem accept_thumbnail_prompt (env : Env) (s : WidgetState)
    (h1 : folderPath s ≠ "") (h2 : wname s ≠ "") (h3 : env.selection ≠ []) :
    (env.fileExists (iconPath s) = false →
      (accept env s).questionShown = true) ∧
    (env.fileExists (iconPath s) = false →
      env.dialogButton = MsgButton.cancel →
      (accept env s).saveCall = none ∧
      (accept env s).raised = none ∧
      (accept env s).state.qtClosed = s.qtClosed) ∧
    (env.fileExists (iconPath s) = true →
      (accept env s).questionShown = false) := by
  refine ⟨fun h4 => ?_, fun h4 h5 => ?_, fun h4 => ?_⟩
  · rw [accept_questionShown_eq]
    by_cases h5 : env.dialogButton = MsgButton.cancel
    · simp [acceptTry_cancel env s h1 h2 h3 h4 h5]
    · simp [acceptTry_dialog_save env s h1 h2 h3 h4 h5]
  · have hc := acceptTry_cancel env s h1 h2 h3 h4 h5
    rw [accept_saveCall_eq, accept_raised_eq, accept_state_eq, hc]
    simp
  · rw [accept_questionShown_eq, acceptTry_iconExists env s h1 h2 h3 h4]
    exact save_questionShown env _ s

/-- Witness for C2 at a concrete input: no icon file, user cancels —
no save call, no exception, widget stays open. -/
theorem accept_thumbnail_prompt_witness :
    (accept ⟨["pCube1"], fun _ => false, MsgButton.cancel, none, none⟩
        ⟨"", none, 0, "pose1", "", "/tmp/lib", 300,
          (0, 0), (0, 0), (0, 0), false⟩).saveCall = none ∧
    (accept ⟨["pCube1"], fun _ => false, MsgButton.cancel, none, none⟩
        ⟨"", none, 0, "pose1", "", "/tmp/lib", 300,
          (0, 0), (0, 0), (0, 0), false⟩).raised = none ∧
    (accept ⟨["pCube1"], fun _ => false, MsgButton.cancel, none, none⟩
        ⟨"", none, 0, "pose1", "", "/tmp/lib", 300,
          (0, 0), (0, 0), (0, 0), false⟩).state.qtClosed = false :=
  (accept_thumbnail_prompt
      ⟨["pCube1"], fun _ => false, MsgButton.cancel, none, none⟩
      ⟨"", none, 0, "pose1", "", "/tmp/lib", 300,
        (0, 0), (0, 0), (0, 0), false⟩
      (by decide) (by decide) (by decide)).2.1 rfl rfl

/-- C3: when the widget-level `save` completes (`item.save` returns
without raising), `close` has run: the widget is closed, the script-job
handle is `None`, the subscription's `kill()` ran exactly once, and a
further `close` kills nothing more. -/
theorem save_closes_once (env : Env) (args : SaveArgs) (s : WidgetState)
    (h : env.itemSaveRaises = none) (hj : s.scriptJob ≠ none) :
    (save env args s).state.qtClosed = true ∧
    (save env args s).state.scriptJob = none ∧
    (save env args s).sj.kills = 1 ∧
    (close (save env args s).state).1.scriptJob = none ∧
    (close (save env args s).state).2.kills = 0 := by
  obtain ⟨hs, he⟩ := save_state_of_ok env args s h
  rw [hs, he]
  refine ⟨close_qtClosed s, close_scriptJob s, ?_, close_scriptJob _, ?_⟩
  · rw [close_kills]; simp [hj]
  · rw [close_kills]; simp [close_scriptJob s]

/-- Witness for C3 at a concrete input with a live script job. -/
theorem save_closes_once_witness :
    (save ⟨["pCube1"], fun _ => true, MsgButton.yes, none, none⟩
        ⟨["pCube1"], "/tmp/lib/pose1", "/tmp/t.jpg", []⟩
        ⟨"/tmp/t.jpg", some 0, 1, "pose1", "", "/tmp/lib", 300,
          (0, 0), (0, 0), (0, 0), false⟩).state.scriptJob = none ∧
    (save ⟨["pCube1"], fun _ => true, MsgButton.yes, none, none⟩
        ⟨["pCube1"], "/tmp/lib/pose1", "/tmp/t.jpg", []⟩
        ⟨"/tmp/t.jpg", some 0, 1, "pose1", "", "/tmp/lib", 300,
          (0, 0), (0, 0), (0, 0), false⟩).sj.kills = 1 :=
  ⟨(save_closes_once ⟨["pCube1"], fun _ => true, MsgButton.yes, none, none⟩
      ⟨["pCube1"], "/tmp/lib/pose1", "/tmp/t.jpg", []⟩
      ⟨"/tmp/t.jpg", some 0, 1, "pose1", "", "/tmp/lib", 300,
        (0, 0), (0, 0), (0, 0), false⟩ rfl (by decide)).2.1,
   (save_closes_once ⟨["pCube1"], fun _ => true, MsgButton.yes, none, none⟩
      ⟨["pCube1"], "/tmp/lib/pose1", "/tmp/t.jpg", []⟩
      ⟨"/tmp/t.jpg", some 0, 1, "pose1", "", "/tmp/lib", 300,
        (0, 0), (0, 0), (0, 0), false⟩ rfl (by decide)).2.2.1⟩

/-- C5: on a successful run of `accept` the item collaborator is called
with exactly the current Maya selection, the folder path joined to the
stripped name by `"/"`, the widget's icon path and the one-key metadata
dict mapping `"description"` to the stripped comment text. -/
theorem accept_save_call_arguments (env : Env) (s : WidgetState)
    (h1 : folderPath s ≠ "") (h2 : wname s ≠ "") (h3 : env.selection ≠ [])
    (h4 : env.fileExists (iconPath s) = true ∨
      env.dialogButton ≠ MsgButton.cancel) :
    (accept env s).saveCall = some
      { objects := env.selection
        path := folderPath s ++ "/" ++ wname s
        iconP := iconPath (accept env s).state
        metadata := [("description", description s)] } := by
  rw [accept_saveCall_eq, accept_state_eq]
  by_cases hex : env.fileExists (iconPath s) = true
  · rw [acceptTry_iconExists env s h1 h2 h3 hex, save_saveCall,
      save_state_iconPath]
  · have h4f : env.fileExists (iconPath s) = false := by simpa using hex
    have h5 : env.dialogButton ≠ MsgButton.cancel := h4.resolve_left hex
    have hdesc : description (showThumbnailCaptureDialog env s).1
        = description s := by
      unfold description
      rw [(showThumbnailCaptureDialog_preserves env s).2.1]
    rw [acceptTry_dialog_save env s h1 h2 h3 h4f h5]
    simp [save_saveCall, save_state_iconPath, hdesc]

/-- Witness for C5 at a concrete input where the icon file exists. -/
theorem accept_save_call_arguments_witness :
    (accept ⟨["pCube1"], fun _ => true, MsgButton.yes, none, none⟩
        ⟨"/tmp/t.jpg", some 0, 1, " pose1 ", " nice ", "/tmp/lib", 300,
          (0, 0), (0, 0), (0, 0), false⟩).saveCall = some
      { objects := ["pCube1"]
        path := "/tmp/lib/pose1"
        iconP := "/tmp/t.jpg"
        metadata := [("description", "nice")] } :=
  accept_save_call_arguments
    ⟨["pCube1"], fun _ => true, MsgButton.yes, none, none⟩
    ⟨"/tmp/t.jpg", some 0, 1, " pose1 ", " nice ", "/tmp/lib", 300,
      (0, 0), (0, 0), (0, 0), false⟩
    (by decide) (by decide) (by decide) (Or.inl rfl)

/-- C6: the accept flow is validate, then delegate, then close — a
validation failure prevents the `item.save` call; the widget ends up
closed exactly when `item.save` was called and returned normally; and
when `item.save` raises, the widget is not closed and the script job
stays registered. -/
theorem accept_validate_delegate_close (env : Env) (s : WidgetState)
    (h : s.qtClosed = false) :
    ((folderPath s = "" ∨ wname s = "" ∨ env.selection = []) →
      (accept env s).saveCall = none) ∧
    ((accept env s).state.qtClosed = true ↔
      ((accept env s).saveCall ≠ none ∧ env.itemSaveRaises = none)) ∧
    (env.itemSaveRaises ≠ none →
      (accept env s).state.qtClosed = false ∧
      (accept env s).state.scriptJob = s.scriptJob) := by
  refine ⟨fun hv => ?_, ?_, fun hrne => ?_⟩
  · rw [accept_saveCall_eq]
    by_cases hf : folderPath s = ""
    · simp [acceptTry_noFolder env s hf]
    by_cases hn : wname s = ""
    · simp [acceptTry_noName env s hf hn]
    have ho : env.selection = [] := by tauto
    simp [acceptTry_noObjects env s hf hn ho]
  · rw [accept_state_eq, accept_saveCall_eq]
    by_cases h1 : folderPath s = ""
    · simp [acceptTry_noFolder env s h1, h]
    by_cases h2 : wname s = ""
    · simp [acceptTry_noName env s h1 h2, h]
    by_cases h3 : env.selection = []
    · simp [acceptTry_noObjects env s h1 h2 h3, h]
    by_cases h4 : env.fileExists (iconPath s) = true
    · rw [acceptTry_iconExists env s h1 h2 h3 h4]
      rcases hr : env.itemSaveRaises with _ | m
      · simp [save, hr, close_qtClosed]
      · simp [save, hr, h]
    · have h4f : env.fileExists (iconPath s) = false := by simpa using h4
      by_cases h5 : env.dialogButton = MsgButton.cancel
      · simp [acceptTry_cancel env s h1 h2 h3 h4f h5, h]
      · rw [acceptTry_dialog_save env s h1 h2 h3 h4f h5]
        rcases hr : env.itemSaveRaises with _ | m
        · simp [save, hr, close_qtClosed]
        · have hq := (showThumbnailCaptureDialog_preserves env s).2.2.2.2
          simp [save, hr, hq, h]
  · rcases hne : env.itemSaveRaises with _ | m
    · exact absurd hne hrne
    rw [accept_state_eq]
    by_cases h1 : folderPath s = ""
    · simp [acceptTry_noFolder env s h1, h]
    by_cases h2 : wname s = ""
    · simp [acceptTry_noName env s h1 h2, h]
    by_cases h3 : env.selection = []
    · simp [acceptTry_noObjects env s h1 h2 h3, h]
    by_cases h4 : env.fileExists (iconPath s) = true
    · rw [acceptTry_iconExists env s h1 h2 h3 h4]
      simp [save, hne, h]
    · have h4f : env.fileExists (iconPath s) = false := by simpa using h4
      by_cases h5 : env.dialogButton = MsgButton.cancel
      · simp [acceptTry_cancel env s h1 h2 h3 h4f h5, h]
      · rw [acceptTry_dialog_save env s h1 h2 h3 h4f h5]
        have hq := (showThumbnailCaptureDialog_preserves env s).2.2.2.2
        have hsj := (showThumbnailCaptureDialog_preserves env s).2.2.2.1
        simp [save, hne, hq, hsj, h]

/-- Witness for C6 at a concrete input: `item.save` raises, so the
widget is not closed and the script job survives. -/
theorem accept_validate_delegate_close_witness :
    (accept ⟨["pCube1"], fun _ => true, MsgButton.yes, none, some "disk full"⟩
        ⟨"/tmp/t.jpg", some 0, 1, "pose1", "", "/tmp/lib", 300,
          (0, 0), (0, 0), (0, 0), false⟩).state.qtClosed = false ∧
    (accept ⟨["pCube1"], fun _ => true, MsgButton.yes, none, some "disk full"⟩
        ⟨"/tmp/t.jpg", some 0, 1, "pose1", "", "/tmp/lib", 300,
          (0, 0), (0, 0), (0, 0), false⟩).state.scriptJob = some 0 :=
  (accept_validate_delegate_close
      ⟨["pCube1"], fun _ => true, MsgButton.yes, none, some "disk full"⟩
      ⟨"/tmp/t.jpg", some 0, 1, "pose1", "", "/tmp/lib", 300,
        (0, 0), (0, 0), (0, 0), false⟩ rfl).2.2 (by decide)

/-- C7: at most one live script-job subscription — enabling constructs
a job only when the handle is `None` and repeated enabling is a no-op,
disabling kills an existing job exactly once and resets the handle to
`None`, and after `close` the handle is `None`. -/
theorem scriptJob_at_most_one (s : WidgetState) :
    (s.scriptJob = none →
      (setScriptJobEnabled true s).1.scriptJob = some s.nextJobId ∧
      (setScriptJobEnabled true s).2.creates = 1) ∧
    (s.scriptJob ≠ none →
      (setScriptJobEnabled true s).1 = s ∧
      (setScriptJobEnabled true s).2.creates = 0) ∧
    (setScriptJobEnabled false s).1.scriptJob = none ∧
    (s.scriptJob ≠ none → (setScriptJobEnabled false s).2.kills = 1) ∧
    (s.scriptJob = none → (setScriptJobEnabled false s).2.kills = 0) ∧
    (close s).1.scriptJob = none := by
  refine ⟨fun hn => ?_, fun hs => ?_, ?_, fun hs => ?_, fun hn => ?_,
    close_scriptJob s⟩
  · simp [setScriptJobEnabled, hn]
  · simp [setScriptJobEnabled, hs]
  · by_cases hn : s.scriptJob = none <;> simp [setScriptJobEnabled, hn]
  · simp [setScriptJobEnabled, hs]
  · simp [setScriptJobEnabled, hn]

/-- Witness for C7 at a concrete input: a state with a live job —
re-enabling creates nothing, disabling kills once. -/
theorem scriptJob_at_most_one_witness :
    (setScriptJobEnabled true
        ⟨"", some 7, 8, "", "", "", 0, (0, 0), (0, 0), (0, 0), false⟩).2.creates
      = 0 ∧
    (setScriptJobEnabled false
        ⟨"", some 7, 8, "", "", "", 0, (0, 0), (0, 0), (0, 0), false⟩).2.kills
      = 1 :=
  ⟨((scriptJob_at_most_one
      ⟨"", some 7, 8, "", "", "", 0, (0, 0), (0, 0), (0, 0), false⟩).2.1
        (by decide)).2,
   (scriptJob_at_most_one
      ⟨"", some 7, 8, "", "", "", 0, (0, 0), (0, 0), (0, 0), false⟩).2.2.2.1
        (by decide)⟩

/-- C8: the icon path is set once and read until replaced — after
`setIconPath p` the getter returns `p`, the value after construction is
`""`, the capture callback routes through `setIconPath`, every other
operation leaves the stored icon path unchanged, and a whole `accept`
run changes it only to a captured path. -/
theorem iconPath_set_once (env : Env) (p q nm cm fl : String)
    (s : WidgetState) (w : Int) :
    iconPath (setIconPath p s) = p ∧
    iconPath (initState nm cm fl w) = "" ∧
    iconPath (thumbnailCaptured p s) = p ∧
    iconPath (setFolderPath q s) = iconPath s ∧
    iconPath (setScriptJobEnabled true s).1 = iconPath s ∧
    iconPath (setScriptJobEnabled false s).1 = iconPath s ∧
    iconPath (close s).1 = iconPath s ∧
    iconPath (updateThumbnailSize s) = iconPath s ∧
    iconPath (setIcon s) = iconPath s ∧
    (env.capturedPath = none →
      iconPath (accept env s).state = iconPath s) ∧
    (∀ r : String, env.capturedPath = some r →
      iconPath (accept env s).state = iconPath s ∨
      iconPath (accept env s).state = r) := by
  refine ⟨?_, ?_, ?_, ?_, ?_, ?_, (close_preserves s).1, ?_, ?_,
    fun hc => ?_, fun r hr => ?_⟩
  · simp [setIconPath, setIcon, updateThumbnailSize, iconPath]
  · simp [initState, setScriptJobEnabled, updateThumbnailSize, iconPath]
  · simp [thumbnailCaptured, setIconPath, setIcon, updateThumbnailSize,
      iconPath]
  · simp [setFolderPath, iconPath]
  · by_cases hn : s.scriptJob = none <;>
      simp [setScriptJobEnabled, hn, iconPath]
  · by_cases hn : s.scriptJob = none <;>
      simp [setScriptJobEnabled, hn, iconPath]
  · simp [updateThumbnailSize, iconPath]
  · simp [setIcon, iconPath]
  · rcases accept_state_iconPath env s with hh | hh
    · exact hh
    · rw [hc] at hh; cases hh
  · rcases accept_state_iconPath env s with hh | hh
    · exact Or.inl hh
    · right
      rw [hr] at hh
      exact (Option.some.inj hh).symm

/-- Witness for C8 at concrete inputs: the setter is read back and an
`accept` run with no capture leaves the icon path alone. -/
theorem iconPath_set_once_witness :
    iconPath (setIconPath "/tmp/t.jpg"
        ⟨"", none, 0, "", "", "", 0, (0, 0), (0, 0), (0, 0), false⟩)
      = "/tmp/t.jpg" ∧
    iconPath (accept ⟨[], fun _ => false, MsgButton.cancel, none, none⟩
        ⟨"/old.jpg", none, 0, "", "", "", 0,
          (0, 0), (0, 0), (0, 0), false⟩).state = "/old.jpg" :=
  ⟨(iconPath_set_once ⟨[], fun _ => false, MsgButton.cancel, none, none⟩
      "/tmp/t.jpg" "" "" "" ""
      ⟨"", none, 0, "", "", "", 0, (0, 0), (0, 0), (0, 0), false⟩ 0).1,
   (iconPath_set_once ⟨[], fun _ => false, MsgButton.cancel, none, none⟩
      "/tmp/t.jpg" "" "" "" ""
      ⟨"/old.jpg", none, 0, "", "", "", 0,
        (0, 0), (0, 0), (0, 0), false⟩ 0).2.2.2.2.2.2.2.2.2.1 rfl⟩

/-- C9: whitespace is treated asymmetrically — `name()` and
`description()` strip their field text, so a whitespace-only name is
refused as empty, while `folderPath()` is not stripped, so a
whitespace-only folder path passes the folder validation and is used
verbatim as the save destination prefix of the path. -/
theorem whitespace_handling_asymmetry (env : Env) (s : WidgetState) :
    (wname s = pyStrip s.nameText ∧
      description s = pyStrip s.commentText ∧
      folderPath s = s.folderText) ∧
    ((∀ c ∈ s.nameText.toList, isPySpace c) → wname s = "") ∧
    (s.folderText ≠ "" → (∀ c ∈ s.nameText.toList, isPySpace c) →
      (accept env s).raised = some msgNoName) ∧
    (s.folderText ≠ "" → (∀ c ∈ s.folderText.toList, isPySpace c) →
      wname s ≠ "" → env.selection ≠ [] →
      env.fileExists (iconPath s) = true →
      (accept env s).raised = env.itemSaveRaises ∧
      (accept env s).saveCall = some
        { objects := env.selection
          path := s.folderText ++ "/" ++ wname s
          iconP := iconPath s
          metadata := [("description", description s)] }) := by
  refine ⟨⟨rfl, rfl, rfl⟩, fun hn => pyStrip_all_space _ hn,
    fun hf hn => ?_, fun hf hws hn h3 h4 => ?_⟩
  · rw [accept_raised_eq,
      acceptTry_noName env s hf (pyStrip_all_space _ hn)]
  · constructor
    · rw [accept_raised_eq, acceptTry_iconExists env s hf hn h3 h4,
        save_raised]
    · rw [accept_saveCall_eq, acceptTry_iconExists env s hf hn h3 h4,
        save_saveCall]
      rfl

/-- Witness for C9 at concrete inputs: a whitespace-only name is
refused as empty while a whitespace-only folder is accepted and appears
verbatim at the front of the saved path. -/
theorem whitespace_handling_asymmetry_witness :
    (accept ⟨["pCube1"], fun _ => true, MsgButton.yes, none, none⟩
        ⟨"", none, 0, "   ", "", "/tmp/lib", 0,
          (0, 0), (0, 0), (0, 0), false⟩).raised = some msgNoName ∧
    (accept ⟨["pCube1"], fun _ => true, MsgButton.yes, none, none⟩
        ⟨"", none, 0, " pose1 ", "", "  ", 0,
          (0, 0), (0, 0), (0, 0), false⟩).saveCall = some
      { objects := ["pCube1"]
        path := "  " ++ "/" ++ "pose1"
        iconP := ""
        metadata := [("description", "")] } :=
  ⟨(whitespace_handling_asymmetry
      ⟨["pCube1"], fun _ => true, MsgButton.yes, none, none⟩
      ⟨"", none, 0, "   ", "", "/tmp/lib", 0,
        (0, 0), (0, 0), (0, 0), false⟩).2.2.1 (by decide) (by decide),
   ((whitespace_handling_asymmetry
      ⟨["pCube1"], fun _ => true, MsgButton.yes, none, none⟩
      ⟨"", none, 0, " pose1 ", "", "  ", 0,
        (0, 0), (0, 0), (0, 0), false⟩).2.2.2 (by decide) (by decide)
        (by decide) (by decide) rfl).2⟩

end StudioLibrary
